import Mathlib

/-!
Shallow embedding of the matrix validation / orchestration / statistics
pipeline of the api-node repository.

The embedded code is:
* `ProcessMatrixAndGetStatsUseCase.execute`
  (src/application/use-cases/matrix/process-matrix-and-get-stats.usecase.ts):
  inline input validation (lines 40-56), the catch block classifying gateway
  failures (lines 62-79), and the private `calculateMatrixStatistics`
  (lines 103-146) with its local `isDiagonal` helper.
* the error classes of src/domain/errors/app.errors.ts (`AppError`,
  `InvalidMatrixError`, `GoApiError`, `UnauthorizedError`).
* the axios response interceptor of
  src/infrastructure/http-client/go-api.http-client.ts (lines 39-67), which
  classifies transport outcomes before the use case sees them.

JavaScript values are modelled explicitly where the code can observe their
runtime shape: a cell is either a `typeof`-number value (finite rational,
NaN or an infinity) or some other value; a row of the request body is either
an array of cells or a non-array value; the request matrix itself is either
falsy or an array of rows.  Matrices returned by the backend are typed
`number[][]` in the source and the statistics claims use only exact values,
so their cells are modelled as rationals.
-/

namespace ApiNode

/-- A JavaScript number value: a finite rational, NaN, or one of the two
infinities.  `typeof` reports the string `number` for all of them. -/
inductive JsNum where
  | fin (q : ℚ)
  | nan
  | inf
  | ninf
deriving DecidableEq

/-- A JavaScript cell value as observed by validation: either a value whose
`typeof` is `number`, or any other runtime value (string, boolean, object,
null, undefined), distinguished only by a tag. -/
inductive JsValue where
  | num (n : JsNum)
  | nonNum (tag : String)
deriving DecidableEq

/-- The check the source performs on a cell: `typeof item === 'number'`. -/
def JsValue.isNumberType : JsValue → Bool
  | .num _ => true
  | .nonNum _ => false

/-- A row of the request matrix as a runtime value: an array of cells, or a
non-array value (whose `.length` is `undefined`). -/
inductive JsRow where
  | arrOf (cells : List JsValue)
  | nonArray (tag : String)
deriving DecidableEq

/-- The `.length` of a row value: `some n` for an array of `n` cells,
`none` (i.e. `undefined`) for a non-array value. -/
def rowLength : JsRow → Option Nat
  | .arrOf cells => some cells.length
  | .nonArray _ => none

/-- The source expression `row.every(item => typeof item === 'number')`. -/
def rowAllNumbers : JsRow → Bool
  | .arrOf cells => cells.all JsValue.isNumberType
  | .nonArray _ => false

/-- The `matrix` field of the request body as a runtime value: falsy
(null, undefined, ...) or an array of row values. -/
inductive MatrixInput where
  | falsy
  | ofRows (rows : List JsRow)
deriving DecidableEq

/-- The observable fields of `AppError` (src/domain/errors/app.errors.ts):
`message`, `statusCode`, `errorCode` and the optional `details`. -/
structure AppError where
  message : String
  statusCode : Nat
  errorCode : String
  details : Option String
deriving DecidableEq

/-- The `InvalidMatrixError` subclass: fixed message, status 400, code
INVALID_MATRIX, the constructor argument stored in `details`. -/
def InvalidMatrixError (details : Option String) : AppError :=
  { message := "Invalid matrix provided."
  , statusCode := 400
  , errorCode := "INVALID_MATRIX"
  , details := details }

/-- The `GoApiError` subclass: the given message and status, code
GO_API_ERROR, the second constructor argument stored in `details`. -/
def GoApiError (message : String) (details : Option String) (statusCode : Nat) : AppError :=
  { message := message
  , statusCode := statusCode
  , errorCode := "GO_API_ERROR"
  , details := details }

/-- The `UnauthorizedError` subclass: fixed message, status 401. -/
def UnauthorizedError (details : Option String) : AppError :=
  { message := "Authentication required or invalid token."
  , statusCode := 401
  , errorCode := "UNAUTHORIZED"
  , details := details }

/-- Detail text of the first validation error of `execute`. -/
def emptyMsg : String := "Input matrix is empty or malformed."

/-- Detail text of the rectangularity validation error of `execute`. -/
def rectMsg : String := "Matrix must be rectangular (all rows must have the same number of columns)."

/-- Detail text of the numeric-content validation error of `execute`. -/
def numMsg : String := "Matrix must contain only arrays of numbers."

/-- The `for (const row of matrix)` loop of `execute` (lines 48-56): for each
row in order, first the length comparison against `numCols`, then the
`row.every` numeric check; the first failing check throws. -/
def checkRows (numCols : Nat) : List JsRow → Option AppError
  | [] => none
  | r :: rs =>
    if rowLength r ≠ some numCols then
      some (InvalidMatrixError (some rectMsg))
    else if rowAllNumbers r = false then
      some (InvalidMatrixError (some numMsg))
    else
      checkRows numCols rs

/-- Input validation of `execute` (lines 40-56): the guard
`!matrix || matrix.length === 0 || !Array.isArray(matrix[0])` followed by the
per-row loop, where `numCols` is the length of the first row.  Returns the
thrown error, or `none` when validation passes. -/
def validate (matrix : MatrixInput) : Option AppError :=
  match matrix with
  | .falsy => some (InvalidMatrixError (some emptyMsg))
  | .ofRows rows =>
    match rows with
    | [] => some (InvalidMatrixError (some emptyMsg))
    | r0 :: _ =>
      match r0 with
      | .nonArray _ => some (InvalidMatrixError (some emptyMsg))
      | .arrOf cells0 => checkRows cells0.length rows

/-- A backend-returned matrix, typed `number[][]` in the source. -/
abbrev NumMatrix := List (List ℚ)

/-- The cell access `matrix[i][j]`: `some` the value when both indices are in
bounds, `none` (i.e. `undefined`) otherwise. -/
def cellAt (m : NumMatrix) (i j : Nat) : Option ℚ :=
  (m.get? i).bind fun r => r.get? j

/-- The expression `Math.max(...allValues)` on a non-empty list (the empty
case is unreachable behind the length guard). -/
def jsMax : List ℚ → ℚ
  | [] => 0
  | x :: xs => xs.foldl max x

/-- The expression `Math.min(...allValues)` on a non-empty list. -/
def jsMin : List ℚ → ℚ
  | [] => 0
  | x :: xs => xs.foldl min x

/-- The local `isDiagonal` helper of `calculateMatrixStatistics` (lines
119-133): false for zero rows, false when the row count differs from the
first row length, otherwise a scan of all positions `i, j` below those two
bounds where an off-diagonal entry that is absent or nonzero
(`matrix[i][j] !== 0`) makes the result false. -/
def isDiagonal : NumMatrix → Bool
  | [] => false
  | r0 :: rest =>
    if (r0 :: rest).length ≠ r0.length then false
    else
      (List.range (r0 :: rest).length).all fun i =>
        (List.range r0.length).all fun j =>
          (i == j) || decide (cellAt (r0 :: rest) i j = some 0)

/-- The `MatrixStatistics` record of src/domain/entities/matrix.ts. -/
structure MatrixStatistics where
  maxValue : ℚ
  minValue : ℚ
  average : ℚ
  totalSum : ℚ
  isDiagonalOriginal : Bool
  isDiagonalRotated : Bool
deriving DecidableEq

/-- Outcome of the statistics computation: the returned record or the thrown
error. -/
inductive StatsOutcome where
  | ok (s : MatrixStatistics)
  | err (e : AppError)
deriving DecidableEq

/-- Detail text of the defensive guard of `calculateMatrixStatistics`. -/
def noValuesMsg : String := "No numeric values found in matrices to calculate statistics."

/-- The private `calculateMatrixStatistics` (lines 103-146): concatenate all
cells of the original matrix then of the rotated one, throw when the
collection is empty, otherwise return max, min, sum, `sum / count` and the
two diagonal flags. -/
def calculateMatrixStatistics (originalMatrix rotatedMatrix : NumMatrix) : StatsOutcome :=
  let allValues := originalMatrix.flatten ++ rotatedMatrix.flatten
  if allValues.length = 0 then
    .err (InvalidMatrixError (some noValuesMsg))
  else
    let totalSum := allValues.foldl (· + ·) 0
    .ok
      { maxValue := jsMax allValues
      , minValue := jsMin allValues
      , average := totalSum / (allValues.length : ℚ)
      , totalSum := totalSum
      , isDiagonalOriginal := isDiagonal originalMatrix
      , isDiagonalRotated := isDiagonal rotatedMatrix }

/-- The error body the backend sends on failure
(`{ error?, details?, message? }`). -/
structure ErrBody where
  error : Option String
  details : Option String
  message : Option String
deriving DecidableEq

/-- The `error.response` object: HTTP status and optional parsed body. -/
structure ErrResponse where
  status : Nat
  data : Option ErrBody
deriving DecidableEq

/-- What the catch block of `execute` can observe on a caught error: its
`.message` string and its optional `.response` field.  Errors of the
`AppError` hierarchy carry no `.response`; the raw axios error re-thrown by
the interceptor for the dimension case carries one. -/
structure Caught where
  msg : String
  response : Option ErrResponse
deriving DecidableEq

/-- A failing transport outcome entering the axios response interceptor:
a response with an HTTP error status and a parsed body, a request that got
no response at all, or a request-setup failure. -/
inductive AxiosFailure where
  | withResponse (msg : String) (status : Nat) (data : ErrBody)
  | noResponse (msg : String)
  | setupError (msg : String)
deriving DecidableEq

/-- JavaScript `a || b` on an optional string: the fallback is used when the
left side is absent or the empty string (both falsy). -/
def jsOr : Option String → String → String
  | none, d => d
  | some s, d => if s = "" then d else s

/-- The response interceptor of `GoApiHttpClient` (lines 39-67), producing
the error the gateway rejects with, restricted to the two fields the use
case later reads (`.message` and `.response`): status 401 becomes an
`UnauthorizedError`; a 400 status whose body error is
`dimensiones_de_matriz_invalidas` re-throws the raw axios error (keeping its
`.response`); any other status becomes a `GoApiError` whose message is
`message || details || generic`; no response at all and setup failures
become `GoApiError`s without a `.response`. -/
def interceptClassify : AxiosFailure → Caught
  | .withResponse msg status body =>
    if status = 401 then
      { msg := (UnauthorizedError (some (jsOr body.details "Token de acceso de la aplicación inválido o expirado."))).message
      , response := none }
    else if status = 400 ∧ body.error = some "dimensiones_de_matriz_invalidas" then
      { msg := msg, response := some { status := status, data := some body } }
    else
      { msg := jsOr body.message (jsOr body.details ("Go API responded with status " ++ toString status))
      , response := none }
  | .noResponse _ =>
    { msg := "No response received from Go API. It might be down or unreachable.", response := none }
  | .setupError msg =>
    { msg := "Error setting up request to Go API: " ++ msg, response := none }

/-- The catch block of `execute` (lines 62-79): when the caught error has a
truthy `error.response?.status`, a 400 with body error
`dimensiones_de_matriz_invalidas` is re-raised as `InvalidMatrixError`
carrying `details || fallback` as its details, and any other status is
re-raised as a `GoApiError` built from the body; otherwise a network-style
`GoApiError` is raised with the NETWORK_ERROR tag as details and the default
status 500. -/
def classifyCaught (e : Caught) : AppError :=
  match e.response with
  | some resp =>
    if resp.status ≠ 0 then
      match resp.data with
      | some body =>
        if resp.status = 400 ∧ body.error = some "dimensiones_de_matriz_invalidas" then
          InvalidMatrixError
            (some (jsOr body.details "Las dimensiones de la matriz son inválidas según la API de Go."))
        else
          GoApiError
            (jsOr body.details ("Error de la API de Go con estado " ++ toString resp.status ++ "."))
            (some (jsOr body.error "GO_API_ERROR"))
            resp.status
      | none =>
        GoApiError
          ("Error de la API de Go con estado " ++ toString resp.status ++ ".")
          (some "GO_API_ERROR")
          resp.status
    else
      GoApiError
        ("Fallo al conectar o error desconocido de la API de Go: " ++ e.msg)
        (some "NETWORK_ERROR")
        500
  | none =>
    GoApiError
      ("Fallo al conectar o error desconocido de la API de Go: " ++ e.msg)
      (some "NETWORK_ERROR")
      500

/-- The `qr_factorization` pair returned by the backend. -/
structure QRFactorization where
  Q : NumMatrix
  R : NumMatrix
deriving DecidableEq

/-- The success payload `goResult` returned by the gateway. -/
structure GoApiResponseData where
  original_matrix : NumMatrix
  rotated_matrix : NumMatrix
  qr_factorization : QRFactorization
deriving DecidableEq

/-- Behaviour of the single gateway call made by `execute`: the promise
resolves with a payload or rejects with an error (as observed by the catch
block). -/
inductive GatewayOutcome where
  | resolve (data : GoApiResponseData)
  | reject (e : Caught)
deriving DecidableEq

/-- The `ProcessedMatrixResult` record returned by `execute`. -/
structure ProcessedMatrixResult where
  originalMatrix : NumMatrix
  rotatedMatrix : NumMatrix
  qrFactorization : QRFactorization
  statistics : MatrixStatistics
deriving DecidableEq

/-- Result of one `execute` call: the returned record or the thrown error. -/
inductive ExecResult where
  | ok (r : ProcessedMatrixResult)
  | err (e : AppError)
deriving DecidableEq

/-- One `execute` call together with the number of times
`goApiGateway.processMatrix` was invoked during it. -/
structure ExecOutcome where
  result : ExecResult
  gatewayCalls : Nat
deriving DecidableEq

/-- `ProcessMatrixAndGetStatsUseCase.execute` (lines 36-91): validate the
input (throwing before any gateway contact), make the single gateway call,
classify a rejection through the catch block, compute statistics on the
returned matrices, and assemble the final record. -/
def execute (matrix : MatrixInput) (gw : GatewayOutcome) : ExecOutcome :=
  match validate matrix with
  | some e => { result := .err e, gatewayCalls := 0 }
  | none =>
    match gw with
    | .reject c => { result := .err (classifyCaught c), gatewayCalls := 1 }
    | .resolve data =>
      match calculateMatrixStatistics data.original_matrix data.rotated_matrix with
      | .err e => { result := .err e, gatewayCalls := 1 }
      | .ok stats =>
        { result := .ok
            { originalMatrix := data.original_matrix
            , rotatedMatrix := data.rotated_matrix
            , qrFactorization := data.qr_factorization
            , statistics := stats }
        , gatewayCalls := 1 }

/-- A row passes both per-row checks of the validation loop: its length is
`numCols` and all its cells are number-typed. -/
def isGoodRow (numCols : Nat) (r : JsRow) : Bool :=
  (rowLength r == some numCols) && rowAllNumbers r

theorem checkRows_eq_dropWhile (nc : Nat) (rows : List JsRow) :
    checkRows nc rows =
      match rows.dropWhile (isGoodRow nc) with
      | [] => none
      | r :: _ =>
        some (InvalidMatrixError
          (some (if rowLength r = some nc then numMsg else rectMsg))) := by
  induction rows with
  | nil => rfl
  | cons r rs ih =>
    by_cases h1 : rowLength r = some nc
    · by_cases h2 : rowAllNumbers r = true
      · have hg : isGoodRow nc r = true := by
          simp [isGoodRow, h1, h2]
        rw [List.dropWhile_cons_of_pos hg]
        rw [← ih]
        simp [checkRows, h1, h2]
      · have hg : isGoodRow nc r = false := by
          simp [isGoodRow, h2]
        rw [List.dropWhile_cons_of_neg (by simp [hg])]
        simp [checkRows, h1, Bool.eq_false_iff.mpr h2]
    · have hg : isGoodRow nc r = false := by
        simp [isGoodRow, h1]
      rw [List.dropWhile_cons_of_neg (by simp [hg])]
      simp [checkRows, h1]

theorem dropWhile_head_not {α : Type} (p : α → Bool) (l : List α) (r : α)
    (rs : List α) (h : l.dropWhile p = r :: rs) : r ∈ l ∧ p r = false := by
  induction l with
  | nil => simp [List.dropWhile] at h
  | cons x xs ih =>
    by_cases hx : p x = true
    · rw [List.dropWhile_cons_of_pos hx] at h
      rcases ih h with ⟨hm, hp⟩
      exact ⟨List.mem_cons_of_mem _ hm, hp⟩
    · rw [List.dropWhile_cons_of_neg (by simpa using hx)] at h
      cases h
      exact ⟨List.mem_cons_self _ _, by simpa using hx⟩

theorem checkRows_err_cases (nc : Nat) (rows : List JsRow) (e : AppError)
    (h : checkRows nc rows = some e) :
    e = InvalidMatrixError (some rectMsg) ∨ e = InvalidMatrixError (some numMsg) := by
  induction rows with
  | nil => simp [checkRows] at h
  | cons r rs ih =>
    rw [checkRows] at h
    split at h
    · exact .inl (Option.some.inj h).symm
    · split at h
      · exact .inr (Option.some.inj h).symm
      · exact ih h

theorem validate_err_fields (m : MatrixInput) (e : AppError)
    (h : validate m = some e) :
    e.message = "Invalid matrix provided." ∧ e.statusCode = 400 ∧
      e.errorCode = "INVALID_MATRIX" ∧ ∃ s, e.details = some s := by
  have hc : e = InvalidMatrixError (some emptyMsg) ∨
      e = InvalidMatrixError (some rectMsg) ∨
      e = InvalidMatrixError (some numMsg) := by
    cases m with
    | falsy => exact .inl (Option.some.inj h).symm
    | ofRows rows =>
      cases rows with
      | nil => exact .inl (Option.some.inj h).symm
      | cons r0 rest =>
        cases r0 with
        | nonArray tag => exact .inl (Option.some.inj h).symm
        | arrOf cells0 =>
          exact .inr (checkRows_err_cases cells0.length _ e h)
  rcases hc with rfl | rfl | rfl <;>
    exact ⟨rfl, rfl, rfl, _, rfl⟩

theorem calcStats_err_cases (a b : NumMatrix) (e : AppError)
    (h : calculateMatrixStatistics a b = .err e) :
    e = InvalidMatrixError (some noValuesMsg) := by
  rw [calculateMatrixStatistics] at h
  split at h
  · exact (StatsOutcome.err.inj h).symm
  · cases h

theorem classifyCaught_cases (c : Caught) :
    (classifyCaught c).errorCode = "GO_API_ERROR" ∨
      ∃ s, classifyCaught c = InvalidMatrixError (some s) := by
  rw [classifyCaught]
  split
  · split
    · split
      · split
        · exact .inr ⟨_, rfl⟩
        · exact .inl rfl
      · exact .inl rfl
    · exact .inl rfl
  · exact .inl rfl

theorem foldl_max_init_le (xs : List ℚ) (a : ℚ) : a ≤ xs.foldl max a := by
  induction xs generalizing a with
  | nil => simp
  | cons x xs ih => exact le_trans (le_max_left a x) (ih (max a x))

theorem le_foldl_max (xs : List ℚ) (a : ℚ) (x : ℚ) (h : x ∈ xs) :
    x ≤ xs.foldl max a := by
  induction xs generalizing a with
  | nil => cases h
  | cons y ys ih =>
    rcases List.mem_cons.mp h with rfl | h'
    · exact le_trans (le_max_right a x) (foldl_max_init_le ys (max a x))
    · exact ih (max a y) h'

theorem foldl_max_mem (xs : List ℚ) (a : ℚ) :
    xs.foldl max a = a ∨ xs.foldl max a ∈ xs := by
  induction xs generalizing a with
  | nil => exact .inl rfl
  | cons y ys ih =>
    rcases ih (max a y) with h | h
    · rw [List.foldl_cons, h]
      rcases max_choice a y with h2 | h2
      · exact .inl h2
      · exact .inr (by rw [h2]; exact List.mem_cons_self _ _)
    · exact .inr (List.mem_cons_of_mem _ h)

theorem foldl_min_init_le (xs : List ℚ) (a : ℚ) : xs.foldl min a ≤ a := by
  induction xs generalizing a with
  | nil => simp
  | cons x xs ih => exact le_trans (ih (min a x)) (min_le_left a x)

theorem foldl_min_le (xs : List ℚ) (a : ℚ) (x : ℚ) (h : x ∈ xs) :
    xs.foldl min a ≤ x := by
  induction xs generalizing a with
  | nil => cases h
  | cons y ys ih =>
    rcases List.mem_cons.mp h with rfl | h'
    · exact le_trans (foldl_min_init_le ys (min a x)) (min_le_right a x)
    · exact ih (min a y) h'

theorem foldl_min_mem (xs : List ℚ) (a : ℚ) :
    xs.foldl min a = a ∨ xs.foldl min a ∈ xs := by
  induction xs generalizing a with
  | nil => exact .inl rfl
  | cons y ys ih =>
    rcases ih (min a y) with h | h
    · rw [List.foldl_cons, h]
      rcases min_choice a y with h2 | h2
      · exact .inl h2
      · exact .inr (by rw [h2]; exact List.mem_cons_self _ _)
    · exact .inr (List.mem_cons_of_mem _ h)

theorem jsMax_mem (l : List ℚ) (h : l ≠ []) : jsMax l ∈ l := by
  cases l with
  | nil => exact absurd rfl h
  | cons x xs =>
    rcases foldl_max_mem xs x with h' | h'
    · rw [jsMax, h']; exact List.mem_cons_self _ _
    · exact List.mem_cons_of_mem _ h'

theorem le_jsMax (l : List ℚ) (x : ℚ) (h : x ∈ l) : x ≤ jsMax l := by
  cases l with
  | nil => cases h
  | cons y ys =>
    rcases List.mem_cons.mp h with rfl | h'
    · exact foldl_max_init_le ys x
    · exact le_foldl_max ys y x h'

theorem jsMin_mem (l : List ℚ) (h : l ≠ []) : jsMin l ∈ l := by
  cases l with
  | nil => exact absurd rfl h
  | cons x xs =>
    rcases foldl_min_mem xs x with h' | h'
    · rw [jsMin, h']; exact List.mem_cons_self _ _
    · exact List.mem_cons_of_mem _ h'

theorem jsMin_le (l : List ℚ) (x : ℚ) (h : x ∈ l) : jsMin l ≤ x := by
  cases l with
  | nil => cases h
  | cons y ys =>
    rcases List.mem_cons.mp h with rfl | h'
    · exact foldl_min_init_le ys x
    · exact foldl_min_le ys y x h'

theorem foldl_add_eq_sum (l : List ℚ) (a : ℚ) : l.foldl (· + ·) a = a + l.sum := by
  induction l generalizing a with
  | nil => simp
  | cons x xs ih =>
    rw [List.foldl_cons, ih, List.sum_cons]
    ring

theorem calcStats_ok (a b : NumMatrix) (h : a.flatten ++ b.flatten ≠ []) :
    calculateMatrixStatistics a b = .ok
      { maxValue := jsMax (a.flatten ++ b.flatten)
      , minValue := jsMin (a.flatten ++ b.flatten)
      , average := (a.flatten ++ b.flatten).sum / ((a.flatten ++ b.flatten).length : ℚ)
      , totalSum := (a.flatten ++ b.flatten).sum
      , isDiagonalOriginal := isDiagonal a
      , isDiagonalRotated := isDiagonal b } := by
  have hlen : ¬ (a.flatten ++ b.flatten).length = 0 := by
    intro h0
    exact h (List.length_eq_zero.mp h0)
  simp only [calculateMatrixStatistics]
  rw [if_neg hlen]
  simp only [foldl_add_eq_sum, zero_add]

theorem checkRows_none_iff (nc : Nat) (rows : List JsRow) :
    checkRows nc rows = none ↔ ∀ r ∈ rows, isGoodRow nc r = true := by
  induction rows with
  | nil => simp [checkRows]
  | cons r rs ih =>
    by_cases h1 : rowLength r = some nc
    · by_cases h2 : rowAllNumbers r = true
      · simp [checkRows, h1, h2, ih, isGoodRow]
      · simp [checkRows, h1, h2, isGoodRow]
    · simp [checkRows, h1, isGoodRow]

/-- C1: for a gateway failure with HTTP status 400 and body error code
`dimensiones_de_matriz_invalidas`, `execute` does re-raise an
`InvalidMatrixError`, but the backend-supplied detail text
(`La matriz debe ser cuadrada.`) is stored in the error's `details` field
while its `message` is the fixed string `Invalid matrix provided.` — not the
detail text, contrary to the claim (and to the repository's own unit test,
which expects `message` to equal the detail text).  The fallback text for an
absent detail likewise lands in `details`.  This theorem evaluates the code
at the failing input. -/
theorem dimensionDetailStoredInDetailsField :
    (execute (.ofRows [.arrOf [.num (.fin 1)]])
        (.reject { msg := "Request failed with status code 400"
                 , response := some
                     { status := 400
                     , data := some
                         { error := some "dimensiones_de_matriz_invalidas"
                         , details := some "La matriz debe ser cuadrada."
                         , message := none } } })).result
      = .err (InvalidMatrixError (some "La matriz debe ser cuadrada.")) ∧
    (InvalidMatrixError (some "La matriz debe ser cuadrada.")).message
      = "Invalid matrix provided." ∧
    (InvalidMatrixError (some "La matriz debe ser cuadrada.")).message
      ≠ "La matriz debe ser cuadrada." ∧
    (InvalidMatrixError (some "La matriz debe ser cuadrada.")).details
      = some "La matriz debe ser cuadrada." ∧
    classifyCaught
        { msg := "Request failed with status code 400"
        , response := some
            { status := 400
            , data := some
                { error := some "dimensiones_de_matriz_invalidas"
                , details := none
                , message := none } } }
      = InvalidMatrixError
          (some "Las dimensiones de la matriz son inválidas según la API de Go.") := by
  refine ⟨rfl, rfl, ?_, rfl, rfl⟩
  decide

/-- C2 counterexample: the matrix with first row `[1, "a"]` (correct length,
non-numeric cell) and second row `[1, 2, 3]` (differing length) both
contains a row whose length differs from the first row's length and contains
a non-numeric cell, yet validation fails with the non-numeric error, not the
rectangularity error — refuting the claimed global check order. -/
theorem validationOrderCounterexample :
    validate (.ofRows
        [.arrOf [.num (.fin 1), .nonNum "a"],
         .arrOf [.num (.fin 1), .num (.fin 2), .num (.fin 3)]])
      = some (InvalidMatrixError (some numMsg)) ∧
    validate (.ofRows
        [.arrOf [.num (.fin 1), .nonNum "a"],
         .arrOf [.num (.fin 1), .num (.fin 2), .num (.fin 3)]])
      ≠ some (InvalidMatrixError (some rectMsg)) := by
  refine ⟨rfl, ?_⟩
  decide

/-- C2 amended: the empty-or-malformed check does run first (falsy input,
zero rows, non-array first row), but the rectangularity and numeric checks
are interleaved per row: rows are scanned in order and within each row the
length check precedes the numeric check, so the reported error is determined
by the first offending row — `not rectangular` when that row's length
differs from the first row's, `non-numeric` otherwise.  A length mismatch in
a later row does not take precedence over a non-numeric cell in an earlier
row. -/
theorem validationRowwiseOrder :
    validate .falsy = some (InvalidMatrixError (some emptyMsg)) ∧
    validate (.ofRows []) = some (InvalidMatrixError (some emptyMsg)) ∧
    (∀ (tag : String) (rest : List JsRow),
       validate (.ofRows (.nonArray tag :: rest))
         = some (InvalidMatrixError (some emptyMsg))) ∧
    (∀ (cells0 : List JsValue) (rest : List JsRow),
       validate (.ofRows (.arrOf cells0 :: rest)) =
         match (JsRow.arrOf cells0 :: rest).dropWhile (isGoodRow cells0.length) with
         | [] => none
         | r :: _ =>
           some (InvalidMatrixError
             (some (if rowLength r = some cells0.length then numMsg else rectMsg)))) := by
  refine ⟨rfl, rfl, fun tag rest => rfl, fun cells0 rest => ?_⟩
  exact checkRows_eq_dropWhile cells0.length (.arrOf cells0 :: rest)

/-- C5: whenever input validation fails, `execute` raises exactly the
validation error (an `InvalidMatrixError`) and the gateway's `processMatrix`
is never invoked: the call count is zero. -/
theorem validationFailureSkipsGateway :
    ∀ (m : MatrixInput) (gw : GatewayOutcome) (e : AppError),
      validate m = some e →
      (execute m gw).result = .err e ∧
      (execute m gw).gatewayCalls = 0 ∧
      e.message = "Invalid matrix provided." ∧
      e.statusCode = 400 ∧
      e.errorCode = "INVALID_MATRIX" := by
  intro m gw e h
  obtain ⟨h1, h2, h3, -⟩ := validate_err_fields m e h
  refine ⟨?_, ?_, h1, h2, h3⟩ <;> simp [execute, h]

/-- C5 witness: the empty-array input fails validation and the pipeline
reports the error with zero gateway calls. -/
theorem validationFailureSkipsGateway_witness :
    (execute (.ofRows []) (.resolve ⟨[], [], ⟨[], []⟩⟩)).result
        = .err (InvalidMatrixError (some emptyMsg)) ∧
    (execute (.ofRows []) (.resolve ⟨[], [], ⟨[], []⟩⟩)).gatewayCalls = 0 ∧
    (InvalidMatrixError (some emptyMsg)).message = "Invalid matrix provided." ∧
    (InvalidMatrixError (some emptyMsg)).statusCode = 400 ∧
    (InvalidMatrixError (some emptyMsg)).errorCode = "INVALID_MATRIX" :=
  validationFailureSkipsGateway (.ofRows []) (.resolve ⟨[], [], ⟨[], []⟩⟩)
    (InvalidMatrixError (some emptyMsg)) rfl

/-- C9: when the gateway call gets no response at all, the error surfaced by
`execute` is a `GoApiError` whose `errorCode` field is `GO_API_ERROR`; the
string `NETWORK_ERROR` is only its `details` value.  The repository's own
unit test expects the surfaced error to have `errorCode` equal to
`NETWORK_ERROR`, which the code contradicts.  This theorem evaluates the
composed interceptor-plus-use-case path at the failing input. -/
theorem noResponseErrorCodePlacement :
    (execute (.ofRows [.arrOf [.num (.fin 1)]])
        (.reject (interceptClassify (.noResponse "Network Error")))).result
      = .err (GoApiError
          "Fallo al conectar o error desconocido de la API de Go: No response received from Go API. It might be down or unreachable."
          (some "NETWORK_ERROR") 500) ∧
    (GoApiError
        "Fallo al conectar o error desconocido de la API de Go: No response received from Go API. It might be down or unreachable."
        (some "NETWORK_ERROR") 500).errorCode = "GO_API_ERROR" ∧
    (GoApiError
        "Fallo al conectar o error desconocido de la API de Go: No response received from Go API. It might be down or unreachable."
        (some "NETWORK_ERROR") 500).errorCode ≠ "NETWORK_ERROR" ∧
    (GoApiError
        "Fallo al conectar o error desconocido de la API de Go: No response received from Go API. It might be down or unreachable."
        (some "NETWORK_ERROR") 500).details = some "NETWORK_ERROR" ∧
    (execute (.ofRows [.arrOf [.num (.fin 1)]])
        (.reject (interceptClassify (.noResponse "Network Error")))).gatewayCalls = 1 := by
  refine ⟨rfl, rfl, ?_, rfl, rfl⟩
  decide

/-- C10: every `InvalidMatrixError` surfaced by the pipeline — from input
validation, from the backend-dimension re-classification, or from the
empty-statistics guard — has the fixed message `Invalid matrix provided.`,
status code 400 and error code `INVALID_MATRIX`, and carries its
condition-specific descriptive text in the optional `details` field. -/
theorem invalidMatrixErrorUniform :
    ∀ (m : MatrixInput) (gw : GatewayOutcome) (e : AppError),
      (execute m gw).result = .err e →
      e.errorCode = "INVALID_MATRIX" →
      e.message = "Invalid matrix provided." ∧
      e.statusCode = 400 ∧
      ∃ s, e.details = some s := by
  intro m gw e h hcode
  cases hv : validate m with
  | some e2 =>
    have hres : ExecResult.err e2 = ExecResult.err e := by
      rw [← h]; simp [execute, hv]
    cases ExecResult.err.inj hres
    obtain ⟨h1, h2, -, h4⟩ := validate_err_fields m _ hv
    exact ⟨h1, h2, h4⟩
  | none =>
    cases gw with
    | reject c =>
      have hres : ExecResult.err (classifyCaught c) = ExecResult.err e := by
        rw [← h]; simp [execute, hv]
      cases ExecResult.err.inj hres
      rcases classifyCaught_cases c with hgo | ⟨s, hs⟩
      · rw [hcode] at hgo
        exact absurd hgo (by decide)
      · rw [hs]
        exact ⟨rfl, rfl, s, rfl⟩
    | resolve data =>
      cases hs : calculateMatrixStatistics data.original_matrix data.rotated_matrix with
      | err e2 =>
        have hres : ExecResult.err e2 = ExecResult.err e := by
          rw [← h]; simp [execute, hv, hs]
        cases ExecResult.err.inj hres
        rw [calcStats_err_cases _ _ _ hs]
        exact ⟨rfl, rfl, noValuesMsg, rfl⟩
      | ok stats =>
        have hres : ExecResult.err e = ExecResult.ok
            { originalMatrix := data.original_matrix
            , rotatedMatrix := data.rotated_matrix
            , qrFactorization := data.qr_factorization
            , statistics := stats } := by
          rw [← h]; simp [execute, hv, hs]
        cases hres

/-- C10 witness: the validation error of the falsy input has the uniform
shape. -/
theorem invalidMatrixErrorUniform_witness :
    (InvalidMatrixError (some emptyMsg)).message = "Invalid matrix provided." ∧
    (InvalidMatrixError (some emptyMsg)).statusCode = 400 ∧
    ∃ s, (InvalidMatrixError (some emptyMsg)).details = some s :=
  invalidMatrixErrorUniform .falsy (.resolve ⟨[], [], ⟨[], []⟩⟩)
    (InvalidMatrixError (some emptyMsg)) rfl rfl

/-- C4: the diagonal predicate holds iff the matrix is non-empty, its row
count equals the column count of its first row, and every in-range
off-diagonal position holds the cell `0`; a matrix with zero rows is never
diagonal, every 1-by-1 matrix is diagonal, and the four concrete examples of
the spec evaluate as claimed. -/
theorem isDiagonalCharacterization :
    (∀ m : NumMatrix,
        isDiagonal m = true ↔
          m ≠ [] ∧ m.length = (m.headD []).length ∧
            ∀ i j : Nat, i < m.length → j < (m.headD []).length → i ≠ j →
              cellAt m i j = some 0) ∧
    (∀ q : ℚ, isDiagonal [[q]] = true) ∧
    isDiagonal [] = false ∧
    isDiagonal [[5]] = true ∧
    isDiagonal [[1, 0], [0, 2]] = true ∧
    isDiagonal [[1, 1], [0, 2]] = false ∧
    isDiagonal [[1, 2, 3]] = false := by
  refine ⟨?_, ?_, by decide, by decide, by decide, by decide, by decide⟩
  · intro m
    cases m with
    | nil => simp [isDiagonal]
    | cons r0 rest =>
      by_cases hsq : (r0 :: rest).length = r0.length
      · have hcond : ¬ ((r0 :: rest).length ≠ r0.length) := by simpa using hsq
        simp only [isDiagonal, if_neg hcond, List.all_eq_true, List.mem_range,
          Bool.or_eq_true, beq_iff_eq, decide_eq_true_eq, List.headD_cons]
        constructor
        · intro h
          refine ⟨by simp, hsq, fun i j hi hj hij => ?_⟩
          rcases h i hi j hj with h' | h'
          · exact absurd h' hij
          · exact h'
        · rintro ⟨-, -, h⟩ i hi j hj
          by_cases hij : i = j
          · exact .inl hij
          · exact .inr (h i j hi hj hij)
      · have hsq2 : ¬ (rest.length + 1 = r0.length) := by simpa using hsq
        simp only [isDiagonal, if_pos hsq, List.headD_cons]
        simp [hsq2]
  · intro q
    have hr1 : List.range 1 = [0] := rfl
    simp [isDiagonal, hr1]

/-- C4 witness: the 1-by-1 matrix `[[5]]` is diagonal, obtained from the
characterization. -/
theorem isDiagonalCharacterization_witness : isDiagonal [[(5 : ℚ)]] = true :=
  isDiagonalCharacterization.2.1 5

/-- C3: on any pair of matrices with at least one cell in total, the
statistics computation succeeds and returns the maximum, minimum and sum of
the ordered concatenation of all cells of the original matrix then all cells
of the rotated one, with `average = totalSum / count` and the two diagonal
flags; the two end-to-end examples of the spec evaluate exactly as
claimed. -/
theorem statisticsSpec :
    (∀ a b : NumMatrix, a.flatten ++ b.flatten ≠ [] →
      ∃ s, calculateMatrixStatistics a b = .ok s ∧
        s.maxValue ∈ a.flatten ++ b.flatten ∧
        (∀ v ∈ a.flatten ++ b.flatten, v ≤ s.maxValue) ∧
        s.minValue ∈ a.flatten ++ b.flatten ∧
        (∀ v ∈ a.flatten ++ b.flatten, s.minValue ≤ v) ∧
        s.totalSum = (a.flatten ++ b.flatten).sum ∧
        s.average = s.totalSum / ((a.flatten ++ b.flatten).length : ℚ) ∧
        s.isDiagonalOriginal = isDiagonal a ∧
        s.isDiagonalRotated = isDiagonal b) ∧
    calculateMatrixStatistics [[1, 2, 3], [4, 5, 6], [7, 8, 9]]
        [[7, 4, 1], [8, 5, 2], [9, 6, 3]] =
      .ok { maxValue := 9, minValue := 1, average := 5, totalSum := 90
          , isDiagonalOriginal := false, isDiagonalRotated := false } ∧
    calculateMatrixStatistics [[5]] [[5]] =
      .ok { maxValue := 5, minValue := 5, average := 5, totalSum := 10
          , isDiagonalOriginal := true, isDiagonalRotated := true } := by
  refine ⟨?_, ?_, ?_⟩
  · intro a b h
    refine ⟨_, calcStats_ok a b h, ?_, ?_, ?_, ?_, rfl, rfl, rfl, rfl⟩
    · exact jsMax_mem _ h
    · exact fun v hv => le_jsMax _ v hv
    · exact jsMin_mem _ h
    · exact fun v hv => jsMin_le _ v hv
  · have h1 : isDiagonal [[1, 2, 3], [4, 5, 6], [7, 8, 9]] = false := by decide
    have h2 : isDiagonal [[7, 4, 1], [8, 5, 2], [9, 6, 3]] = false := by decide
    norm_num [calculateMatrixStatistics, jsMax, jsMin, h1, h2]
  · norm_num [calculateMatrixStatistics, jsMax, jsMin, isDiagonal, cellAt]

/-- C3 witness: the characterization instantiated at `[[2]]` and `[[3]]`. -/
theorem statisticsSpec_witness :
    ∃ s, calculateMatrixStatistics [[2]] [[3]] = .ok s ∧
      s.maxValue ∈ ([[2]] : NumMatrix).flatten ++ ([[3]] : NumMatrix).flatten ∧
      (∀ v ∈ ([[2]] : NumMatrix).flatten ++ ([[3]] : NumMatrix).flatten,
        v ≤ s.maxValue) ∧
      s.minValue ∈ ([[2]] : NumMatrix).flatten ++ ([[3]] : NumMatrix).flatten ∧
      (∀ v ∈ ([[2]] : NumMatrix).flatten ++ ([[3]] : NumMatrix).flatten,
        s.minValue ≤ v) ∧
      s.totalSum = (([[2]] : NumMatrix).flatten ++ ([[3]] : NumMatrix).flatten).sum ∧
      s.average = s.totalSum /
        ((([[2]] : NumMatrix).flatten ++ ([[3]] : NumMatrix).flatten).length : ℚ) ∧
      s.isDiagonalOriginal = isDiagonal [[2]] ∧
      s.isDiagonalRotated = isDiagonal [[3]] :=
  statisticsSpec.1 [[2]] [[3]] (by simp)

/-- C6: when the backend fails with a generic error carrying HTTP status
500 — whether the rejection reaching the use case is the `GoApiError` built
by the gateway's interceptor (first part) or a raw error still exposing its
`response` with status 500 (second part) — `execute` raises a `GoApiError`
whose `statusCode` is 500, and the gateway is invoked exactly once.  On the
interceptor path the interceptor's own status is discarded by the catch
block and 500 survives only because it is also the re-wrapping default. -/
theorem backendError500 :
    (∀ (m : MatrixInput) (msg : String) (body : ErrBody),
       validate m = none →
       ∃ e,
         (execute m (.reject (interceptClassify (.withResponse msg 500 body)))).result
             = .err e ∧
         e.errorCode = "GO_API_ERROR" ∧ e.statusCode = 500 ∧
         (execute m (.reject (interceptClassify (.withResponse msg 500 body)))).gatewayCalls
             = 1) ∧
    (∀ (m : MatrixInput) (cmsg : String) (body : ErrBody),
       validate m = none →
       ∃ e,
         (execute m (.reject
             { msg := cmsg
             , response := some { status := 500, data := some body } })).result
             = .err e ∧
         e.errorCode = "GO_API_ERROR" ∧ e.statusCode = 500 ∧
         (execute m (.reject
             { msg := cmsg
             , response := some { status := 500, data := some body } })).gatewayCalls
             = 1) := by
  constructor
  · intro m msg body h
    have hint : interceptClassify (.withResponse msg 500 body) =
        { msg := jsOr body.message (jsOr body.details ("Go API responded with status " ++ toString (500 : Nat)))
        , response := none } := by
      simp [interceptClassify]
    refine ⟨GoApiError
        ("Fallo al conectar o error desconocido de la API de Go: " ++
          jsOr body.message (jsOr body.details ("Go API responded with status " ++ toString (500 : Nat))))
        (some "NETWORK_ERROR") 500, ?_, rfl, rfl, ?_⟩
    · simp [execute, h, hint, classifyCaught]
    · simp [execute, h]
  · intro m cmsg body h
    refine ⟨GoApiError
        (jsOr body.details ("Error de la API de Go con estado " ++ toString (500 : Nat) ++ "."))
        (some (jsOr body.error "GO_API_ERROR")) 500, ?_, rfl, rfl, ?_⟩
    · simp [execute, h, classifyCaught]
    · simp [execute, h]

/-- C6 witness: a 500 response with an empty body, through the interceptor,
against the valid input `[[1]]`. -/
theorem backendError500_witness :
    ∃ e,
      (execute (.ofRows [.arrOf [.num (.fin 1)]])
          (.reject (interceptClassify
            (.withResponse "Request failed with status code 500" 500
              ⟨none, none, none⟩)))).result = .err e ∧
      e.errorCode = "GO_API_ERROR" ∧ e.statusCode = 500 ∧
      (execute (.ofRows [.arrOf [.num (.fin 1)]])
          (.reject (interceptClassify
            (.withResponse "Request failed with status code 500" 500
              ⟨none, none, none⟩)))).gatewayCalls = 1 :=
  backendError500.1 (.ofRows [.arrOf [.num (.fin 1)]])
    "Request failed with status code 500" ⟨none, none, none⟩ rfl

/-- C7 counterexample: the claim says a matrix containing NaN or an infinity
fails validation with the non-numeric error, but `typeof NaN` and
`typeof Infinity` are `number`, so these matrices pass validation. -/
theorem nanInfinityAccepted :
    validate (.ofRows [.arrOf [.num .nan]]) = none ∧
    validate (.ofRows [.arrOf [.num .inf]]) = none ∧
    validate (.ofRows [.arrOf [.num .ninf]]) = none := by
  refine ⟨rfl, rfl, rfl⟩

theorem validate_mapped_numeric (cells0 : List JsValue) (rest : List (List JsValue))
    (hrect : ∀ r ∈ cells0 :: rest, r.length = cells0.length) :
    (validate (.ofRows ((cells0 :: rest).map JsRow.arrOf)) = none ↔
      ∀ r ∈ cells0 :: rest, ∀ c ∈ r, c.isNumberType = true) ∧
    (validate (.ofRows ((cells0 :: rest).map JsRow.arrOf)) = none ∨
      validate (.ofRows ((cells0 :: rest).map JsRow.arrOf)) =
        some (InvalidMatrixError (some numMsg))) := by
  have hval : validate (.ofRows ((cells0 :: rest).map JsRow.arrOf)) =
      checkRows cells0.length ((cells0 :: rest).map JsRow.arrOf) := rfl
  have hgood : ∀ r ∈ cells0 :: rest,
      isGoodRow cells0.length (JsRow.arrOf r) = r.all JsValue.isNumberType := by
    intro r hr
    simp [isGoodRow, rowLength, rowAllNumbers, hrect r hr]
  constructor
  · rw [hval, checkRows_none_iff]
    constructor
    · intro h r hr c hc
      have h2 := h (JsRow.arrOf r) (List.mem_map_of_mem _ hr)
      rw [hgood r hr] at h2
      exact List.all_eq_true.mp h2 c hc
    · intro h r hr
      obtain ⟨r', hr', rfl⟩ := List.mem_map.mp hr
      rw [hgood r' hr']
      exact List.all_eq_true.mpr (h r' hr')
  · cases hdw : ((cells0 :: rest).map JsRow.arrOf).dropWhile (isGoodRow cells0.length) with
    | nil =>
      rw [hval, checkRows_eq_dropWhile, hdw]
      exact .inl rfl
    | cons r rs =>
      obtain ⟨hmem, -⟩ := dropWhile_head_not _ _ _ _ hdw
      obtain ⟨r', hr', rfl⟩ := List.mem_map.mp hmem
      have hlen : rowLength (JsRow.arrOf r') = some cells0.length := by
        simp [rowLength, hrect r' hr']
      rw [hval, checkRows_eq_dropWhile, hdw]
      exact .inr (by simp [hlen])

/-- C7 amended: the numeric check is a `typeof` check, not a finiteness
check: NaN and the infinities count as numbers.  For a non-empty
rectangular matrix of cell values, validation succeeds iff every cell has
`typeof` `number`; when some cell does not, validation fails with the
non-numeric error. -/
theorem numericCheckIsTypeof :
    (JsValue.isNumberType (.num .nan) = true ∧
     JsValue.isNumberType (.num .inf) = true ∧
     JsValue.isNumberType (.num .ninf) = true) ∧
    (∀ (cells0 : List JsValue) (rest : List (List JsValue)),
       (∀ r ∈ cells0 :: rest, r.length = cells0.length) →
       (validate (.ofRows ((cells0 :: rest).map JsRow.arrOf)) = none ↔
         ∀ r ∈ cells0 :: rest, ∀ c ∈ r, c.isNumberType = true)) ∧
    (∀ (cells0 : List JsValue) (rest : List (List JsValue)),
       (∀ r ∈ cells0 :: rest, r.length = cells0.length) →
       ¬ (∀ r ∈ cells0 :: rest, ∀ c ∈ r, c.isNumberType = true) →
       validate (.ofRows ((cells0 :: rest).map JsRow.arrOf)) =
         some (InvalidMatrixError (some numMsg))) := by
  refine ⟨⟨rfl, rfl, rfl⟩, ?_, ?_⟩
  · intro cells0 rest hrect
    exact (validate_mapped_numeric cells0 rest hrect).1
  · intro cells0 rest hrect hnot
    rcases (validate_mapped_numeric cells0 rest hrect).2 with hnone | herr
    · exact absurd ((validate_mapped_numeric cells0 rest hrect).1.mp hnone) hnot
    · exact herr

/-- C7 amended witness: the single-row numeric matrix `[[1]]` instantiates
the typeof characterization. -/
theorem numericCheckIsTypeof_witness :
    validate (.ofRows (([JsValue.num (.fin 1)] :: []).map JsRow.arrOf)) = none ↔
      ∀ r ∈ [JsValue.num (.fin 1)] :: ([] : List (List JsValue)),
        ∀ c ∈ r, c.isNumberType = true :=
  numericCheckIsTypeof.2.1 [JsValue.num (.fin 1)] [] (by simp)

/-- C8: the statistics computation fails with the no-numeric-values
`InvalidMatrixError` exactly when the concatenation of all cells of the two
matrices is empty, succeeds whenever it is non-empty, and when the backend
resolves with two matrices that both have zero cells the error propagates
out of `execute` unchanged after the single gateway call. -/
theorem noNumericValuesGuard :
    (∀ a b : NumMatrix,
       calculateMatrixStatistics a b = .err (InvalidMatrixError (some noValuesMsg)) ↔
         a.flatten ++ b.flatten = []) ∧
    (∀ a b : NumMatrix, a.flatten ++ b.flatten ≠ [] →
       ∃ s, calculateMatrixStatistics a b = .ok s) ∧
    (∀ (m : MatrixInput) (data : GoApiResponseData),
       validate m = none →
       data.original_matrix.flatten = [] →
       data.rotated_matrix.flatten = [] →
       (execute m (.resolve data)).result = .err (InvalidMatrixError (some noValuesMsg)) ∧
       (execute m (.resolve data)).gatewayCalls = 1) := by
  refine ⟨?_, ?_, ?_⟩
  · intro a b
    constructor
    · intro h
      by_contra hne
      rw [calcStats_ok a b hne] at h
      cases h
    · intro h
      have hlen : (a.flatten ++ b.flatten).length = 0 := by
        rw [h]; rfl
      simp [calculateMatrixStatistics, hlen]
  · intro a b h
    exact ⟨_, calcStats_ok a b h⟩
  · intro m data hm h1 h2
    have hlen : (data.original_matrix.flatten ++ data.rotated_matrix.flatten).length = 0 := by
      rw [h1, h2]; rfl
    constructor <;> simp [execute, hm, calculateMatrixStatistics, hlen]

/-- C8 witness: a backend success payload whose two matrices are empty makes
`execute` raise the no-numeric-values error after one gateway call. -/
theorem noNumericValuesGuard_witness :
    (execute (.ofRows [.arrOf [.num (.fin 1)]]) (.resolve ⟨[], [], ⟨[], []⟩⟩)).result
        = .err (InvalidMatrixError (some noValuesMsg)) ∧
    (execute (.ofRows [.arrOf [.num (.fin 1)]]) (.resolve ⟨[], [], ⟨[], []⟩⟩)).gatewayCalls
        = 1 :=
  noNumericValuesGuard.2.2 (.ofRows [.arrOf [.num (.fin 1)]]) ⟨[], [], ⟨[], []⟩⟩
    rfl rfl rfl

end ApiNode
